import Mathlib

/-!
Verification of the Evidence Analysis Orchestration & Entity Similarity
Matching Engine: a shallow embedding of the worker-invocation layer
(`AIService.#runPythonInline`, `AIService.extractTextFromFile`), the
evidence-extraction adapter scripts, the composite `completeAnalysis`
pipeline, the phone-number normalizer `validateAndFormatIndianNumber`,
the similarity-threshold plumbing of the `check-similarity-advanced`
HTTP handler, and the `analyze-batch` HTTP handler.
-/

/-- A JSON value, as produced by `JSON.parse` / `json.dumps` in the
worker protocol.  Numbers are modelled as rationals. -/
inductive Json where
  | null : Json
  | bool (b : Bool) : Json
  | num (q : Rat) : Json
  | str (s : String) : Json
  | arr (xs : List Json) : Json
  | obj (fields : List (String × Json)) : Json
  deriving Repr

/-- Python truthiness of a JSON-shaped value (`if incident_details else …`):
`None`, `False`, `0`, `""`, `[]`, `{}` are falsy, everything else truthy. -/
def Json.pyTruthy : Json → Bool
  | .null => false
  | .bool b => b
  | .num q => q ≠ 0
  | .str s => s ≠ ""
  | .arr xs => !xs.isEmpty
  | .obj fs => !fs.isEmpty

/-- JS `String.prototype.trim`: drop leading and trailing whitespace. -/
def jsTrim (s : String) : String :=
  String.mk
    (((s.data.dropWhile Char.isWhitespace).reverse.dropWhile
      Char.isWhitespace).reverse)

/-- The error a rejected worker promise carries: the message string built at
`AIService.js:35` / `AIService.js:200`. -/
structure WorkerFailure where
  message : String
  deriving Repr, DecidableEq

/-- The `close`-event handler of `AIService.#runPythonInline`
(`AIService.js:33-43`): non-zero exit rejects with
`Python exited with code ${code}: ${error || result}`; on exit 0 the captured
stdout is JSON-parsed and the parsed value resolved, and if parsing fails the
promise resolves `{ output: result.trim() }`.  The host `JSON.parse` is taken
as a parameter `parse` (`none` = not valid JSON). -/
def runPythonInlineOnClose (parse : String → Option Json)
    (code : Int) (result error : String) : Except WorkerFailure Json :=
  if code ≠ 0 then
    .error ⟨"Python exited with code " ++ toString code ++ ": " ++
      (if error = "" then result else error)⟩
  else
    match parse result with
    | some parsed => .ok parsed
    | none => .ok (.obj [("output", .str (jsTrim result))])

/-- The `close`-event handler of `AIService.extractTextFromFile`
(`AIService.js:198-210`): non-zero exit rejects with
`Python process exited with code ${code}: ${error}`; on exit 0 the stdout is
JSON-parsed and resolved, and if parsing fails the promise resolves
`{ text: result.trim() }`. -/
def extractTextFromFileOnClose (parse : String → Option Json)
    (code : Int) (result error : String) : Except WorkerFailure Json :=
  if code ≠ 0 then
    .error ⟨"Python process exited with code " ++ toString code ++ ": " ++ error⟩
  else
    match parse result with
    | some parsed => .ok parsed
    | none => .ok (.obj [("text", .str (jsTrim result))])

/-! ### Event-trace model of one worker invocation

`AIService.#runPythonInline` registers listeners for exactly three events of
the spawned child process: `data` on stdout, `data` on stderr, and `close`
(`AIService.js:25-43`).  No `error` listener is registered anywhere in the
executor.  Per Node event semantics, a `close` event runs the registered
handler, a `data` event appends to the corresponding buffer, and an `error`
event with no registered listener is thrown as an uncaught exception — the
promise executor then never calls `resolve` or `reject`. -/

/-- An event delivered to the spawned child-process object. -/
inductive ProcEvent where
  | stdoutData (s : String) : ProcEvent
  | stderrData (s : String) : ProcEvent
  | close (code : Int) : ProcEvent
  | spawnError (msg : String) : ProcEvent
  deriving Repr, DecidableEq

/-- Outcome of delivering a sequence of events to the promise executor. -/
inductive InvocationOutcome where
  /-- All events consumed and neither `resolve` nor `reject` was ever
  called: the promise is left forever pending. -/
  | pending : InvocationOutcome
  /-- The promise settled (resolved or rejected). -/
  | settled (r : Except WorkerFailure Json) : InvocationOutcome
  /-- An `error` event was emitted with no registered listener: the event
  emitter throws and the executor is torn down unsettled. -/
  | crashed (msg : String) : InvocationOutcome
  deriving Repr

/-- Delivering an event trace to the `#runPythonInline` executor
(`AIService.js:10-44`), accumulating the `result`/`error` buffers.  Only
`stdoutData`, `stderrData` and `close` have registered handlers. -/
def runPythonInlineEvents (parse : String → Option Json) :
    List ProcEvent → String → String → InvocationOutcome
  | [], _, _ => .pending
  | .stdoutData s :: rest, result, error =>
      runPythonInlineEvents parse rest (result ++ s) error
  | .stderrData s :: rest, result, error =>
      runPythonInlineEvents parse rest result (error ++ s)
  | .close code :: _, result, error =>
      .settled (runPythonInlineOnClose parse code result error)
  | .spawnError msg :: _, _, _ => .crashed msg

/-- The script selection switch of `AIService.extractTextFromFile`
(`AIService.js:165-180`): four recognised lower-cased file types select a
worker script; anything else is the `default` branch, which throws
`Unsupported file type` synchronously. -/
def extractScriptFor (fileType : String) : Option String :=
  match String.mk (fileType.data.map Char.toLower) with
  | "pdf" => some "pdf_to_text.py"
  | "image" => some "image_to_text.py"
  | "audio" => some "audio_to_text.py"
  | "video" => some "video_to_text.py"
  | _ => none

/-- Delivering an event trace to the promise executor inside
`AIService.extractTextFromFile` (`AIService.js:182-211`); like
`runPythonInlineEvents`, it registers handlers only for `stdoutData`,
`stderrData` and `close`, with no `error` listener. -/
def extractTextEvents (parse : String → Option Json) :
    List ProcEvent → String → String → InvocationOutcome
  | [], _, _ => .pending
  | .stdoutData s :: rest, result, error =>
      extractTextEvents parse rest (result ++ s) error
  | .stderrData s :: rest, result, error =>
      extractTextEvents parse rest result (error ++ s)
  | .close code :: _, result, error =>
      .settled (extractTextFromFileOnClose parse code result error)
  | .spawnError msg :: _, _, _ => .crashed msg

/-- `AIService.extractTextFromFile` as a whole (`AIService.js:161-215`): an
unsupported file type throws inside the `try`, is re-wrapped by the `catch`,
and the async function rejects immediately — before any process events can
arrive.  A supported type spawns the worker and the outcome is driven by the
delivered event trace. -/
def extractTextFromFile (parse : String → Option Json) (fileType : String)
    (events : List ProcEvent) : InvocationOutcome :=
  match extractScriptFor fileType with
  | none => .settled (.error
      ⟨"Text extraction failed: Unsupported file type: " ++ fileType⟩)
  | some _ => extractTextEvents parse events "" ""

/-! ### Evidence-extraction adapter scripts

Each adapter method of `AIService` runs an inline Python script whose body
reads one JSON payload from stdin, checks the path field, and prints exactly
one JSON value before terminating with exit status 0 (the bare `exit()` on
the not-found path raises `SystemExit(None)`, i.e. status 0).  The external
collaborators — `os.path.exists` and the model extraction functions — are
parameters of the embedding. -/

/-- The inline script of `AIService.analyzeAudioFile` (`AIService.js:397-411`):
the single JSON value it prints, as a function of the payload field
`audio_file_path`, the filesystem (`os.path.exists`), and the model function
`extract_text_from_audio`.  A Python-falsy (empty) or nonexistent path prints
the not-found object and exits 0 before any extraction. -/
def analyzeAudioScript (fileExists : String → Bool)
    (extract_text_from_audio : String → String)
    (audio_file_path : String) : Json :=
  if audio_file_path = "" || !fileExists audio_file_path then
    .obj [("error", .str "Audio file not found")]
  else
    .obj [("transcribed_text", .str (extract_text_from_audio audio_file_path))]

/-- The result of `extract_details_from_video`, per the worker protocol
(`transcribed_audio`, `text_from_frames[]`). -/
structure VideoDetails where
  transcribed_audio : String
  text_from_frames : List String

/-- `json.dumps`-shaped value of a `VideoDetails`. -/
def VideoDetails.toJson (v : VideoDetails) : Json :=
  .obj [("transcribed_audio", .str v.transcribed_audio),
        ("text_from_frames", .arr (v.text_from_frames.map Json.str))]

/-- The inline script of `AIService.analyzeVideoFile` (`AIService.js:421-434`):
prints the not-found object for a falsy or nonexistent path, otherwise prints
`extract_details_from_video(video_file_path)` itself. -/
def analyzeVideoScript (fileExists : String → Bool)
    (extract_details_from_video : String → VideoDetails)
    (video_file_path : String) : Json :=
  if video_file_path = "" || !fileExists video_file_path then
    .obj [("error", .str "Video file not found")]
  else
    (extract_details_from_video video_file_path).toJson

/-- The inline script of `AIService.analyzeImageFile` (`AIService.js:445-458`). -/
def analyzeImageScript (fileExists : String → Bool)
    (extract_text_from_image : String → String)
    (image_file_path : String) : Json :=
  if image_file_path = "" || !fileExists image_file_path then
    .obj [("error", .str "Image file not found")]
  else
    .obj [("extracted_text", .str (extract_text_from_image image_file_path))]

/-- The inline script of `AIService.analyzePdfFile` (`AIService.js:469-482`). -/
def analyzePdfScript (fileExists : String → Bool)
    (extract_text_from_pdf : String → String)
    (pdf_file_path : String) : Json :=
  if pdf_file_path = "" || !fileExists pdf_file_path then
    .obj [("error", .str "PDF file not found")]
  else
    .obj [("extracted_text", .str (extract_text_from_pdf pdf_file_path))]

/-! ### The composite completeAnalysis pipeline -/

/-- The external model functions imported by the `completeAnalysis` inline
script (`AIService.js:336-345`): extractors for the four evidence modalities
and the four analysis sub-tasks.  Their internals are owned by the Python
model layer; the embedding treats them as opaque parameters. -/
structure CompleteAnalysisDeps where
  extract_text_from_image : String → String
  extract_text_from_pdf : String → String
  extract_text_from_audio : String → String
  extract_details_from_video : String → VideoDetails
  contradiction_in_complain_and_evidences :
    String → String → String → String → String → String → Json × Bool
  get_incident_details_from_text :
    String → String → String → String → String → String → Json
  get_narrative_summary :
    String → String → String → String → String → String → String
  classify_cybercrime : Json → String × Rat

/-- Python truthiness of an optional payload path (`data.get(...)` yields
`None` when absent; `if image_path:` is false for `None` and `""`). -/
def pathTruthy : Option String → Bool
  | none => false
  | some s => s ≠ ""

/-- `image_text = extract_text_from_image(image_path) if image_path else ""`
and its three siblings (`AIService.js:354-356`). -/
def optExtract (f : String → String) (p : Option String) : String :=
  match p with
  | some s => if s ≠ "" then f s else ""
  | none => ""

/-- The inline script of `AIService.completeAnalysis` (`AIService.js:336-386`):
the single JSON value it prints.  Falsy evidence paths skip their extractor
entirely (no filesystem check is made anywhere in this script) and contribute
empty text; the incident details feed the classifier unless they are
Python-falsy, in which case `("Unknown", 0)` is used. -/
def completeAnalysisScript (deps : CompleteAnalysisDeps) (complaint : String)
    (image_path pdf_path audio_path video_path : Option String) : Json :=
  let image_text := optExtract deps.extract_text_from_image image_path
  let pdf_text := optExtract deps.extract_text_from_pdf pdf_path
  let audio_text := optExtract deps.extract_text_from_audio audio_path
  let video_details :=
    match video_path with
    | some s => if s ≠ "" then deps.extract_details_from_video s else ⟨"", []⟩
    | none => ⟨"", []⟩
  let text_from_video_audio := video_details.transcribed_audio
  let text_from_video_frames := String.intercalate " " video_details.text_from_frames
  let contra := deps.contradiction_in_complain_and_evidences complaint
    image_text pdf_text audio_text text_from_video_audio text_from_video_frames
  let incident_details := deps.get_incident_details_from_text complaint
    image_text pdf_text audio_text text_from_video_audio text_from_video_frames
  let narrative_summary := deps.get_narrative_summary complaint
    image_text pdf_text audio_text text_from_video_audio text_from_video_frames
  let classified :=
    if incident_details.pyTruthy then deps.classify_cybercrime incident_details
    else ("Unknown", 0)
  .obj [("contradiction_analysis", contra.1),
        ("has_contradiction", .bool contra.2),
        ("incident_details", incident_details),
        ("narrative_summary", .str narrative_summary),
        ("classification", .str classified.1),
        ("priority_score", .num classified.2)]

/-- Field lookup in a JSON object. -/
def Json.getField (j : Json) (key : String) : Option Json :=
  match j with
  | .obj fields => fields.lookup key
  | _ => none

/-- Key list of a JSON object. -/
def Json.objKeys (j : Json) : List String :=
  match j with
  | .obj fields => fields.map Prod.fst
  | _ => []

/-- The `classifyContent` inline script (`AIService.js:220-229`): prints
`{priority, score}` straight from `classify_cybercrime(data)`. -/
def classifyContentScript (classify_cybercrime : Json → String × Rat)
    (data : Json) : Json :=
  .obj [("priority", .str (classify_cybercrime data).1),
        ("score", .num (classify_cybercrime data).2)]

/-- Modelled from the spec: `classify_cybercrime` lives in
`src/models/summarizer/classifier.py`, which is not part of this repository
snapshot; the spec pins only its observable contract, the priority label set
`{Very Low, Low, Medium, High, Very High}`. -/
def specPriorityLabels : List String :=
  ["Very Low", "Low", "Medium", "High", "Very High"]

/-- Modelled from the spec: a classifier meets the spec contract when every
priority label it returns is drawn from `specPriorityLabels`. -/
def classifierMeetsSpec (classify : Json → String × Rat) : Prop :=
  ∀ d : Json, (classify d).1 ∈ specPriorityLabels

/-! ### HTTP handler pieces -/

/-- An HTTP response produced by a route handler. -/
structure HttpResponse where
  status : Nat
  body : Json
  deriving Repr

/-- The `catch` of `AIService.completeAnalysis` (`AIService.js:389-391`):
a rejection is re-wrapped as `Complete analysis failed: ${error.message}`. -/
def completeAnalysisCall (invocation : Except WorkerFailure Json) :
    Except WorkerFailure Json :=
  match invocation with
  | .ok j => .ok j
  | .error e => .error ⟨"Complete analysis failed: " ++ e.message⟩

/-- The `POST /api/ai/complete-analysis` handler (server file lines 585-592):
`try` forwards a resolved result with status 200; `catch` turns any rejection
into a 500 response `{message}` — it never rethrows. -/
def completeAnalysisRoute (invocation : Except WorkerFailure Json) :
    HttpResponse :=
  match completeAnalysisCall invocation with
  | .ok result => ⟨200, result⟩
  | .error e => ⟨500, .obj [("message", .str e.message)]⟩

/-! ### Phone-number normalization (`validateAndFormatIndianNumber`) -/

/-- JS `phoneNumber.replace(/[^0-9+]/g, "")`: keep only ASCII digits and
`+`. -/
def jsCleanPhone (s : String) : String :=
  String.mk (s.data.filter fun c => c.isDigit || c = '+')

/-- JS `String.prototype.startsWith`. -/
def jsStartsWith (s pre : String) : Bool :=
  pre.data.isPrefixOf s.data

/-- JS `String.prototype.substring(n)`. -/
def jsSubstringFrom (s : String) (n : Nat) : String :=
  String.mk (s.data.drop n)

/-- The prefix-collapsing block of `validateAndFormatIndianNumber` (server
file lines 32-38): strip a leading `+91` from a 13-character cleaned string,
a leading `91` from a 12-character one, or a leading `0` from an
11-character one. -/
def stripPhonePrefixes (cleaned : String) : String :=
  if jsStartsWith cleaned "+91" && cleaned.length == 13 then
    jsSubstringFrom cleaned 3
  else if jsStartsWith cleaned "91" && cleaned.length == 12 then
    jsSubstringFrom cleaned 2
  else if jsStartsWith cleaned "0" && cleaned.length == 11 then
    jsSubstringFrom cleaned 1
  else cleaned

/-- The regex test `/^[6-9]\d\x7b9\x7d$/.test(cleaned)` (server file line
40-42): exactly ten characters, the first in `6`-`9`, the rest digits. -/
def isIndianMobile (s : String) : Bool :=
  match s.data with
  | c :: rest => ('6' ≤ c && c ≤ '9') && rest.all Char.isDigit && s.length == 10
  | [] => false

/-- `validateAndFormatIndianNumber` (server file lines 25-47): `null`
(modelled `none`) for an empty input, otherwise clean, collapse a country
code or trunk prefix, and accept exactly the ten-digit Indian mobile shapes,
prefixing `+91`. -/
def validateAndFormatIndianNumber (phoneNumber : String) : Option String :=
  if phoneNumber = "" then none
  else
    let cleaned := jsCleanPhone phoneNumber
    let collapsed := stripPhonePrefixes cleaned
    if isIndianMobile collapsed then some ("+91" ++ collapsed) else none

/-! ### Similarity thresholds (`check-similarity-advanced`) -/

/-- JS `value || dflt` over an optional numeric request field: `undefined`
(absent) and `0` are falsy and fall back to the default. -/
def jsNumOr (v : Option Rat) (dflt : Rat) : Rat :=
  match v with
  | none => dflt
  | some q => if q = 0 then dflt else q

/-- The thresholds record the similarity worker runs with. -/
structure Thresholds where
  cross_threshold : Rat
  within_threshold : Rat
  deriving Repr, DecidableEq

/-- The `POST /api/ai/check-similarity-advanced` handler (server file lines
651-663) builds `thresholds` from the request body with
`cross_threshold || 0.5` and `within_threshold || 0.3`. -/
def checkSimilarityAdvancedThresholds
    (cross_threshold within_threshold : Option Rat) : Thresholds :=
  ⟨jsNumOr cross_threshold (1/2), jsNumOr within_threshold (3/10)⟩

/-- Python `dict.get(key, dflt)`. -/
def pyDictGet (v : Option Rat) (dflt : Rat) : Rat :=
  v.getD dflt

/-- The thresholds actually used by the matching run: the handler-built
`thresholds` object travels through the worker payload and the inline script
reads `thresholds.get("cross_threshold", 0.5)` and
`thresholds.get("within_threshold", 0.3)` (`AIService.js:111-117`); both
keys are always present in the handler-built object. -/
def activeThresholds (cross_threshold within_threshold : Option Rat) :
    Thresholds :=
  let t := checkSimilarityAdvancedThresholds cross_threshold within_threshold
  ⟨pyDictGet (some t.cross_threshold) (1/2),
   pyDictGet (some t.within_threshold) (3/10)⟩

/-! ### Within-store matching -/

/-- Modelled from the spec: `within_db_match` is defined in
`src/models/database_similarity/database.py`, which is not part of this
repository snapshot (only its caller `AIService.checkDatabaseSimilarity`
is).  The spec defines it as comparing every unordered pair within one
store, excluding self-pairs and duplicate unordered pairs, and keeping pairs
with score at least the within threshold; ids are row indices of the store
and `score` is the aggregate similarity function, a parameter here. -/
def within_db_match {α : Type} (score : α → α → Rat) (records : List α)
    (threshold : Rat) : List (Nat × Nat × Rat) :=
  (records.enum.flatMap fun a =>
    (records.enum.filter fun b => a.1 < b.1).map fun b =>
      (a.1, b.1, score a.2 b.2)).filter fun m => threshold ≤ m.2.2

/-! ### Batch file analysis (`analyze-batch`) -/

/-- One element of the `files` array of a `POST /api/ai/analyze-batch`
request. -/
structure BatchFile where
  file_path : String
  file_type : String
  deriving Repr, DecidableEq

/-- One element of the `results` array: either
`{file_path, file_type, result}` from a resolved (or unsupported-type)
branch, or `{file_path, file_type, error}` from the per-file `catch`. -/
inductive BatchEntry where
  | success (file_path file_type : String) (result : Json) : BatchEntry
  | failure (file_path file_type : String) (error : String) : BatchEntry
  deriving Repr

/-- The four adapter calls the batch handler can await, as functions of the
file path; each yields the adapter promise outcome. -/
structure BatchAdapters where
  analyzeAudioFile : String → Except WorkerFailure Json
  analyzeVideoFile : String → Except WorkerFailure Json
  analyzeImageFile : String → Except WorkerFailure Json
  analyzePdfFile : String → Except WorkerFailure Json

/-- Wrap one awaited adapter outcome as the entry the handler pushes: a
resolved value becomes a `result` entry, a rejection is caught and becomes an
`error` entry (server file lines 690-711). -/
def batchWrap (f : BatchFile) (r : Except WorkerFailure Json) : BatchEntry :=
  match r with
  | .ok j => .success f.file_path f.file_type j
  | .error e => .failure f.file_path f.file_type e.message

/-- The per-file body of the batch loop (server file lines 689-711): dispatch
on `file_type.toLowerCase()`; the `default` branch builds an
`Unsupported file type` result object (pushed as a normal `result`, not via
the `catch`). -/
def batchStep (ad : BatchAdapters) (f : BatchFile) : BatchEntry :=
  match String.mk (f.file_type.data.map Char.toLower) with
  | "audio" => batchWrap f (ad.analyzeAudioFile f.file_path)
  | "video" => batchWrap f (ad.analyzeVideoFile f.file_path)
  | "image" => batchWrap f (ad.analyzeImageFile f.file_path)
  | "pdf" => batchWrap f (ad.analyzePdfFile f.file_path)
  | _ => .success f.file_path f.file_type
      (.obj [("error", .str ("Unsupported file type: " ++ f.file_type))])

/-- The `POST /api/ai/analyze-batch` handler (server file lines 680-718): a
missing or empty `files` array is rejected with status 400; otherwise the
files are processed one at a time, in order, each contributing exactly one
entry, and the collected entries are returned with status 200. -/
def analyzeBatchHandler (ad : BatchAdapters) (files : List BatchFile) :
    Except String (List BatchEntry) :=
  if files.isEmpty then .error "files array is required"
  else .ok (files.map (batchStep ad))



/-! ## Claims -/

/-- C1, as stated, is false on the code: on exit status 0 with non-JSON
stdout, `extractTextFromFile` resolves `{text: trimmed_raw_text}`
(`AIService.js:207`), not `{output: trimmed_raw_text}`.  Concretely, with
stdout `"  hello  "` that is not valid JSON, the result is
`{text: "hello"}` and differs from `{output: "hello"}`. -/
theorem c1_counterexample :
    extractTextFromFileOnClose (fun _ => none) 0 "  hello  " "" =
      .ok (.obj [("text", .str "hello")]) ∧
    extractTextFromFileOnClose (fun _ => none) 0 "  hello  " "" ≠
      .ok (.obj [("output", .str "hello")]) := by
  have h1 : extractTextFromFileOnClose (fun _ => none) 0 "  hello  " "" =
      .ok (.obj [("text", .str "hello")]) := rfl
  refine ⟨h1, fun h => ?_⟩
  rw [h1] at h
  simp at h

/-- C1 (amended): for every worker invocation that terminates with exit
status 0, a stdout that parses as exactly one JSON value is returned
unchanged on every invocation path; a stdout that is not valid JSON yields
`{output: trimmed_raw_text}` on the `#runPythonInline` path and
`{text: trimmed_raw_text}` on the `extractTextFromFile` path. -/
theorem c1_exit_zero_result (parse : String → Option Json) (code : Int)
    (result error : String) (hcode : code = 0) :
    (∀ v, parse result = some v →
      runPythonInlineOnClose parse code result error = .ok v ∧
      extractTextFromFileOnClose parse code result error = .ok v) ∧
    (parse result = none →
      runPythonInlineOnClose parse code result error =
        .ok (.obj [("output", .str (jsTrim result))]) ∧
      extractTextFromFileOnClose parse code result error =
        .ok (.obj [("text", .str (jsTrim result))])) := by
  subst hcode
  refine ⟨fun v hv => ?_, fun hv => ?_⟩ <;>
    simp [runPythonInlineOnClose, extractTextFromFileOnClose, hv]

/-- Witness for C1: a concrete exit-0 invocation with non-JSON stdout. -/
theorem c1_exit_zero_result_witness :
    runPythonInlineOnClose (fun _ => none) 0 "  hi  " "" =
      .ok (.obj [("output", .str "hi")]) :=
  ((c1_exit_zero_result (fun _ => none) 0 "  hi  " "" rfl).2 rfl).1

/-- C2: every worker invocation whose child terminates with a non-zero exit
status rejects with an error carrying that exit code and the
stderr-or-stdout diagnostic text, and the composite
`POST /api/ai/complete-analysis` handler catches the rejection and returns
it as a 500 failure response instead of crashing. -/
theorem c2_nonzero_exit_classified (parse : String → Option Json)
    (code : Int) (result error : String) (hcode : code ≠ 0) :
    runPythonInlineOnClose parse code result error =
      .error ⟨"Python exited with code " ++ toString code ++ ": " ++
        (if error = "" then result else error)⟩ ∧
    completeAnalysisRoute (runPythonInlineOnClose parse code result error) =
      ⟨500, .obj [("message", .str ("Complete analysis failed: " ++
        ("Python exited with code " ++ toString code ++ ": " ++
          (if error = "" then result else error))))]⟩ := by
  have h : runPythonInlineOnClose parse code result error =
      .error ⟨"Python exited with code " ++ toString code ++ ": " ++
        (if error = "" then result else error)⟩ := by
    simp [runPythonInlineOnClose, hcode]
  exact ⟨h, by rw [h]; rfl⟩

/-- Witness for C2: exit status 137 with diagnostic text `Killed`. -/
theorem c2_nonzero_exit_classified_witness :
    completeAnalysisRoute
        (runPythonInlineOnClose (fun _ => none) 137 "" "Killed") =
      ⟨500, .obj [("message",
        .str "Complete analysis failed: Python exited with code 137: Killed")]⟩ :=
  (c2_nonzero_exit_classified (fun _ => none) 137 "" "Killed" (by decide)).2

/-- C3, evaluated at the failing input: when the `python` executable cannot
be started, the child emits an `error` event; `#runPythonInline` registers
no `error` listener (`AIService.js:10-44`), so the event throws uncaught and
the promise is never settled — the caller does not receive a
spawn-classified error and the call does not fail cleanly.  By contrast, the
unsupported-file-type path of `extractTextFromFile` does settle immediately,
before any process event. -/
theorem c3_spawn_failure_not_settled :
    runPythonInlineEvents (fun _ => none)
      [.spawnError "spawn python ENOENT"] "" "" =
      .crashed "spawn python ENOENT" ∧
    (∀ r, runPythonInlineEvents (fun _ => none)
      [.spawnError "spawn python ENOENT"] "" "" ≠ .settled r) ∧
    extractTextFromFile (fun _ => none) "docx" [] =
      .settled (.error
        ⟨"Text extraction failed: Unsupported file type: docx"⟩) := by
  refine ⟨rfl, fun r h => ?_, rfl⟩
  rw [show runPythonInlineEvents (fun _ => none)
      [.spawnError "spawn python ENOENT"] "" "" =
      InvocationOutcome.crashed "spawn python ENOENT" from rfl] at h
  exact InvocationOutcome.noConfusion h

/-- C4: for every extraction adapter (audio, video, image, pdf), a set but
nonexistent path makes the inline script print the explicit not-found
object and exit 0, so the invocation resolves successfully to that object
(given a JSON channel that faithfully returns the printed value) — it is
not a rejection. -/
theorem c4_adapter_not_found (parse : String → Option Json)
    (fileExists : String → Bool)
    (exAudio exImage exPdf : String → String)
    (exVideo : String → VideoDetails) (path stdout : String)
    (hpath : path ≠ "") (hexists : fileExists path = false) :
    analyzeAudioScript fileExists exAudio path =
      .obj [("error", .str "Audio file not found")] ∧
    analyzeVideoScript fileExists exVideo path =
      .obj [("error", .str "Video file not found")] ∧
    analyzeImageScript fileExists exImage path =
      .obj [("error", .str "Image file not found")] ∧
    analyzePdfScript fileExists exPdf path =
      .obj [("error", .str "PDF file not found")] ∧
    (parse stdout = some (analyzeAudioScript fileExists exAudio path) →
      runPythonInlineOnClose parse 0 stdout "" =
        .ok (.obj [("error", .str "Audio file not found")])) := by
  have ha : analyzeAudioScript fileExists exAudio path =
      .obj [("error", .str "Audio file not found")] := by
    simp [analyzeAudioScript, hpath, hexists]
  refine ⟨ha, ?_, ?_, ?_, fun hp => ?_⟩
  · simp [analyzeVideoScript, hpath, hexists]
  · simp [analyzeImageScript, hpath, hexists]
  · simp [analyzePdfScript, hpath, hexists]
  · rw [ha] at hp
    simp [runPythonInlineOnClose, hp]

/-- Witness for C4: a concrete set-but-absent path on an empty
filesystem. -/
theorem c4_adapter_not_found_witness :
    analyzeAudioScript (fun _ => false) (fun _ => "") "evidence.mp3" =
      .obj [("error", .str "Audio file not found")] :=
  (c4_adapter_not_found (fun _ => none) (fun _ => false) (fun _ => "")
    (fun _ => "") (fun _ => "") (fun _ => ⟨"", []⟩) "evidence.mp3" ""
    (by decide) rfl).1

/-- C5: `completeAnalysis` invoked with only the complaint set skips every
absent optional path — the result is independent of the extractor
functions (and of any filesystem fact; the script consults none), each
modality contributes empty extraction text to the four sub-tasks, and the
printed object carries exactly the six fields `contradiction_analysis`,
`has_contradiction`, `incident_details`, `narrative_summary`,
`classification` and `priority_score`. -/
theorem c5_complaint_only (deps deps2 : CompleteAnalysisDeps)
    (complaint : String)
    (hc : deps2.contradiction_in_complain_and_evidences =
      deps.contradiction_in_complain_and_evidences)
    (hd : deps2.get_incident_details_from_text =
      deps.get_incident_details_from_text)
    (hs : deps2.get_narrative_summary = deps.get_narrative_summary)
    (hk : deps2.classify_cybercrime = deps.classify_cybercrime) :
    completeAnalysisScript deps complaint none none none none =
      (let contra := deps.contradiction_in_complain_and_evidences
        complaint "" "" "" "" ""
      let incident_details := deps.get_incident_details_from_text
        complaint "" "" "" "" ""
      let classified :=
        if incident_details.pyTruthy then
          deps.classify_cybercrime incident_details
        else ("Unknown", 0)
      Json.obj [("contradiction_analysis", contra.1),
        ("has_contradiction", .bool contra.2),
        ("incident_details", incident_details),
        ("narrative_summary",
          .str (deps.get_narrative_summary complaint "" "" "" "" "")),
        ("classification", .str classified.1),
        ("priority_score", .num classified.2)]) ∧
    completeAnalysisScript deps2 complaint none none none none =
      completeAnalysisScript deps complaint none none none none ∧
    (completeAnalysisScript deps complaint none none none none).objKeys =
      ["contradiction_analysis", "has_contradiction", "incident_details",
       "narrative_summary", "classification", "priority_score"] := by
  refine ⟨rfl, ?_, rfl⟩
  simp only [completeAnalysisScript, optExtract, hc, hd, hs, hk]

/-- Witness for C5: concrete dependency bundles differing only in their
extractors yield the same complaint-only result. -/
theorem c5_complaint_only_witness :
    completeAnalysisScript
      ⟨fun _ => "IMAGE", fun _ => "PDF", fun _ => "AUDIO",
        fun _ => ⟨"VIDEO", ["F"]⟩, fun _ _ _ _ _ _ => (.str "a", false),
        fun _ _ _ _ _ _ => .null, fun _ _ _ _ _ _ => "s",
        fun _ => ("Medium", 1)⟩ "my complaint" none none none none =
    completeAnalysisScript
      ⟨fun _ => "", fun _ => "", fun _ => "",
        fun _ => ⟨"", []⟩, fun _ _ _ _ _ _ => (.str "a", false),
        fun _ _ _ _ _ _ => .null, fun _ _ _ _ _ _ => "s",
        fun _ => ("Medium", 1)⟩ "my complaint" none none none none :=
  (c5_complaint_only
    ⟨fun _ => "", fun _ => "", fun _ => "", fun _ => ⟨"", []⟩,
      fun _ _ _ _ _ _ => (.str "a", false), fun _ _ _ _ _ _ => .null,
      fun _ _ _ _ _ _ => "s", fun _ => ("Medium", 1)⟩
    ⟨fun _ => "IMAGE", fun _ => "PDF", fun _ => "AUDIO",
      fun _ => ⟨"VIDEO", ["F"]⟩, fun _ _ _ _ _ _ => (.str "a", false),
      fun _ _ _ _ _ _ => .null, fun _ _ _ _ _ _ => "s",
      fun _ => ("Medium", 1)⟩ "my complaint" rfl rfl rfl rfl).2.1

/-- A concrete dependency bundle whose incident-detail extraction comes back
empty (`null`) and whose classifier meets the spec label contract. -/
def fallbackDeps : CompleteAnalysisDeps :=
  ⟨fun _ => "", fun _ => "", fun _ => "", fun _ => ⟨"", []⟩,
    fun _ _ _ _ _ _ => (.str "", false), fun _ _ _ _ _ _ => .null,
    fun _ _ _ _ _ _ => "", fun _ => ("Medium", 1)⟩

/-- C6, as stated, is false on the code: `completeAnalysis` guards the
classifier with `if incident_details else ("Unknown", 0)`
(`AIService.js:377`), so a successful complete-analysis run whose incident
details come back Python-falsy reports the classification `Unknown`, which
is not one of the five priority labels — even with a classifier that always
returns a label from the five-value set. -/
theorem c6_counterexample :
    classifierMeetsSpec fallbackDeps.classify_cybercrime ∧
    (completeAnalysisScript fallbackDeps "c" none none none none).getField
      "classification" = some (.str "Unknown") ∧
    "Unknown" ∉ specPriorityLabels :=
  ⟨fun _ => (by decide : "Medium" ∈ specPriorityLabels), rfl, by decide⟩

/-- C6 (amended): provided the external classifier returns labels from the
five-value set, every complete-analysis result whose `incident_details`
value is Python-truthy carries a classification from that set, and every
`classifyContent` result does unconditionally; when `incident_details` is
falsy, complete-analysis instead carries the out-of-set fallback label
`Unknown`. -/
theorem c6_classification_labels (deps : CompleteAnalysisDeps)
    (complaint : String) (ip pp ap vp : Option String)
    (hspec : classifierMeetsSpec deps.classify_cybercrime) :
    (∃ d : Json,
      (completeAnalysisScript deps complaint ip pp ap vp).getField
        "incident_details" = some d ∧
      (d.pyTruthy = true →
        (completeAnalysisScript deps complaint ip pp ap vp).getField
          "classification" = some (.str (deps.classify_cybercrime d).1) ∧
        (deps.classify_cybercrime d).1 ∈ specPriorityLabels) ∧
      (d.pyTruthy = false →
        (completeAnalysisScript deps complaint ip pp ap vp).getField
          "classification" = some (.str "Unknown"))) ∧
    (∀ data : Json,
      (classifyContentScript deps.classify_cybercrime data).getField
        "priority" = some (.str (deps.classify_cybercrime data).1) ∧
      (deps.classify_cybercrime data).1 ∈ specPriorityLabels) := by
  refine ⟨⟨_, rfl, fun ht => ⟨?_, hspec _⟩, fun hf => ?_⟩,
    fun data => ⟨rfl, hspec data⟩⟩
  · simp only [completeAnalysisScript, Json.getField, List.lookup, ht]
    rfl
  · simp only [completeAnalysisScript, Json.getField, List.lookup, hf]
    rfl

/-- Witness for C6: the spec-conformant constant classifier on truthy
incident details. -/
theorem c6_classification_labels_witness :
    (classifyContentScript (fun _ => ("Medium", (1 : Rat))) Json.null).getField
      "priority" = some (.str "Medium") ∧
    ("Medium" ∈ specPriorityLabels) :=
  ((c6_classification_labels
    ⟨fun _ => "", fun _ => "", fun _ => "", fun _ => ⟨"", []⟩,
      fun _ _ _ _ _ _ => (.str "", false), fun _ _ _ _ _ _ => .null,
      fun _ _ _ _ _ _ => "", fun _ => ("Medium", 1)⟩
    "c" none none none none
    (fun _ => (by decide : "Medium" ∈ specPriorityLabels))).2) Json.null

/-- A character between `6` and `9` is a digit. -/
theorem isDigit_of_between {c : Char} (h1 : '6' ≤ c) (h2 : c ≤ '9') :
    c.isDigit = true := by
  simp [Char.isDigit]
  exact ⟨le_trans (show '0' ≤ '6' by decide) h1, h2⟩

/-- Unpacking a successful Indian-mobile regex test. -/
theorem isIndianMobile_elim {d : String} (h : isIndianMobile d = true) :
    ∃ c rest, d.data = c :: rest ∧ '6' ≤ c ∧ c ≤ '9' ∧
      (∀ ch ∈ rest, ch.isDigit = true) ∧ d.length = 10 := by
  rcases hd : d.data with _ | ⟨c, rest⟩
  · simp only [isIndianMobile, hd] at h
    exact absurd h (by simp)
  · simp only [isIndianMobile, hd, Bool.and_eq_true, decide_eq_true_eq,
      List.all_eq_true, beq_iff_eq] at h
    exact ⟨c, rest, rfl, h.1.1.1, h.1.1.2, fun ch hch => h.1.2 ch hch, h.2⟩

/-- A successful normalization always produces `+91` followed by a
ten-digit mobile body. -/
theorem validate_some_elim {x y : String}
    (h : validateAndFormatIndianNumber x = some y) :
    ∃ d, y = "+91" ++ d ∧ isIndianMobile d = true := by
  simp only [validateAndFormatIndianNumber] at h
  split_ifs at h with h1 h2
  · rw [Option.some.injEq] at h
    exact ⟨stripPhonePrefixes (jsCleanPhone x), h.symm, h2⟩

/-- Canonical outputs are fixed points of `validateAndFormatIndianNumber`. -/
theorem validate_fixpoint {d : String} (hmob : isIndianMobile d = true) :
    validateAndFormatIndianNumber ("+91" ++ d) = some ("+91" ++ d) := by
  obtain ⟨c, rest, hdata, h6, h9, hrest, hlen⟩ := isIndianMobile_elim hmob
  obtain ⟨ld⟩ := d
  have hld : ld = c :: rest := hdata
  subst hld
  have hrl : rest.length = 9 := by
    have : (c :: rest).length = 10 := hlen
    simpa using this
  have hy : ("+91" : String) ++ String.mk (c :: rest) =
      String.mk ('+' :: '9' :: '1' :: c :: rest) := rfl
  rw [hy]
  have hne : String.mk ('+' :: '9' :: '1' :: c :: rest) ≠ "" := by
    intro hcontra
    exact List.noConfusion (congrArg String.data hcontra)
  have hfilter : ('+' :: '9' :: '1' :: c :: rest).filter
      (fun ch => ch.isDigit || ch = '+') = '+' :: '9' :: '1' :: c :: rest := by
    apply List.filter_eq_self.mpr
    intro ch hch
    simp only [List.mem_cons] at hch
    rcases hch with rfl | rfl | rfl | rfl | hch
    · decide
    · decide
    · decide
    · simp [isDigit_of_between h6 h9]
    · simp [hrest ch hch]
  have hclean : jsCleanPhone (String.mk ('+' :: '9' :: '1' :: c :: rest)) =
      String.mk ('+' :: '9' :: '1' :: c :: rest) := by
    simp only [jsCleanPhone]
    rw [hfilter]
  have hpre : jsStartsWith (String.mk ('+' :: '9' :: '1' :: c :: rest)) "+91"
      = true := by
    simp [jsStartsWith, List.isPrefixOf]
  have hlen13 : (String.mk ('+' :: '9' :: '1' :: c :: rest)).length = 13 := by
    show ('+' :: '9' :: '1' :: c :: rest).length = 13
    simp [hrl]
  have hstrip : stripPhonePrefixes (String.mk ('+' :: '9' :: '1' :: c :: rest))
      = String.mk (c :: rest) := by
    simp only [stripPhonePrefixes, hpre, hlen13, jsSubstringFrom]
    rfl
  simp only [validateAndFormatIndianNumber, if_neg hne, hclean, hstrip, hmob,
    if_pos]
  rfl

/-- C7: phone normalization is idempotent — a value it accepts is returned
unchanged when normalized again — and the two representations
`+91 98765-43210` and `09876543210` collapse to the identical canonical
string `+919876543210`. -/
theorem c7_phone_normalization (x y : String)
    (h : validateAndFormatIndianNumber x = some y) :
    validateAndFormatIndianNumber y = some y ∧
    validateAndFormatIndianNumber "+91 98765-43210" =
      validateAndFormatIndianNumber "09876543210" ∧
    validateAndFormatIndianNumber "+91 98765-43210" =
      some "+919876543210" := by
  obtain ⟨d, rfl, hmob⟩ := validate_some_elim h
  exact ⟨validate_fixpoint hmob, rfl, rfl⟩

/-- Witness for C7: normalizing the canonical form of `09876543210` again
returns it unchanged. -/
theorem c7_phone_normalization_witness :
    validateAndFormatIndianNumber "+919876543210" = some "+919876543210" :=
  (c7_phone_normalization "09876543210" "+919876543210" rfl).1

/-- C8, as stated, is false on the code: the handler computes
`cross_threshold || 0.5`, and JS `||` treats a supplied `0` as falsy, so a
request that supplies `cross_threshold = 0` runs with active threshold
`0.5`, not the supplied value. -/
theorem c8_counterexample :
    (activeThresholds (some 0) none).cross_threshold = 1 / 2 ∧
    (1 / 2 : Rat) ≠ 0 := by
  refine ⟨rfl, ?_⟩
  norm_num

/-- C8 (amended): the similarity run defaults to `cross_threshold = 0.5`
and `within_threshold = 0.3`, and a caller-supplied nonzero threshold is
used exactly as supplied; a supplied falsy value (`0`) falls back to the
default instead. -/
theorem c8_thresholds (cross within : Option Rat) :
    activeThresholds none none = ⟨1 / 2, 3 / 10⟩ ∧
    (∀ v : Rat, v ≠ 0 → cross = some v →
      (activeThresholds cross within).cross_threshold = v) ∧
    (∀ w : Rat, w ≠ 0 → within = some w →
      (activeThresholds cross within).within_threshold = w) := by
  refine ⟨rfl, fun v hv hc => ?_, fun w hw hi => ?_⟩
  · subst hc
    simp [activeThresholds, checkSimilarityAdvancedThresholds, jsNumOr,
      pyDictGet, hv]
  · subst hi
    simp [activeThresholds, checkSimilarityAdvancedThresholds, jsNumOr,
      pyDictGet, hw]

/-- Witness for C8: a supplied nonzero cross threshold of `1` is used
exactly. -/
theorem c8_thresholds_witness :
    (activeThresholds (some 1) none).cross_threshold = 1 :=
  (c8_thresholds (some 1) none).2.1 1 (by decide) rfl

/-- Membership in a within-store match list forces strictly increasing row
indices. -/
theorem within_db_match_lt {α : Type} {score : α → α → Rat}
    {records : List α} {threshold : Rat} {a b : Nat} {s : Rat}
    (h : (a, b, s) ∈ within_db_match score records threshold) : a < b := by
  simp only [within_db_match, List.mem_filter, List.mem_flatMap,
    List.mem_map] at h
  obtain ⟨⟨p, _, q, ⟨_, hlt⟩, heq⟩, _⟩ := h
  simp only [decide_eq_true_eq] at hlt
  cases heq
  exact hlt

/-- C9: a within-store matching run never pairs a record id with itself and
never reports the same unordered pair of ids twice. -/
theorem c9_within_matches_irreflexive_unordered {α : Type}
    (score : α → α → Rat) (records : List α) (threshold : Rat)
    (a b : Nat) (s : Rat)
    (h : (a, b, s) ∈ within_db_match score records threshold) :
    a ≠ b ∧ ∀ s2 : Rat, (b, a, s2) ∉ within_db_match score records threshold := by
  have hab := within_db_match_lt h
  refine ⟨Nat.ne_of_lt hab, fun s2 h2 => ?_⟩
  have hba := within_db_match_lt h2
  omega

/-- Witness for C9: a two-record store with a trivially matching pair. -/
theorem c9_within_matches_witness :
    (0 ≠ 1) ∧ ∀ s2 : Rat, (1, 0, s2) ∉ within_db_match
      (fun (_ _ : Nat) => (1 : Rat)) [10, 20] 0 :=
  c9_within_matches_irreflexive_unordered
    (fun (_ _ : Nat) => (1 : Rat)) [10, 20] 0 0 1 1 (by decide)

/-- C10: a nonempty batch request succeeds with exactly one entry per input
file, in input order; entry `i` depends only on file `i` (a rejecting or
unsupported file contributes an error entry at its own position while every
other file is still processed), a rejected adapter call becomes an `error`
entry via the per-file catch, and an unsupported file type becomes an
`Unsupported file type` result object. -/
theorem c10_batch_isolation (ad : BatchAdapters) (files : List BatchFile)
    (hne : files ≠ []) :
    ∃ entries : List BatchEntry,
      analyzeBatchHandler ad files = .ok entries ∧
      entries.length = files.length ∧
      (∀ i (hi : i < files.length),
        entries[i]? = some (batchStep ad (files.get ⟨i, hi⟩))) ∧
      (∀ f : BatchFile, String.mk (f.file_type.data.map Char.toLower) =
          "audio" → ∀ e : WorkerFailure,
        ad.analyzeAudioFile f.file_path = .error e →
        batchStep ad f = .failure f.file_path f.file_type e.message) ∧
      (∀ f : BatchFile, String.mk (f.file_type.data.map Char.toLower) ∉
          (["audio", "video", "image", "pdf"] : List String) →
        batchStep ad f = .success f.file_path f.file_type
          (.obj [("error", .str ("Unsupported file type: " ++
            f.file_type))])) := by
  refine ⟨files.map (batchStep ad), ?_, by simp, fun i hi => ?_,
    fun f hf e he => ?_, fun f hf => ?_⟩
  · simp [analyzeBatchHandler, hne]
  · rw [List.getElem?_map]
    simp [List.getElem?_eq_getElem hi, List.get_eq_getElem]
  · rw [batchStep, hf]
    simp [batchWrap, he]
  · simp only [List.mem_cons, List.not_mem_nil, or_false, not_or] at hf
    obtain ⟨h1, h2, h3, h4⟩ := hf
    simp only [batchStep]

/-- Witness for C10: a concrete one-file batch produces exactly one
entry. -/
theorem c10_batch_isolation_witness :
    ∃ entries : List BatchEntry,
      analyzeBatchHandler
        ⟨fun _ => .ok .null, fun _ => .ok .null, fun _ => .ok .null,
          fun _ => .ok .null⟩ [⟨"a.mp3", "audio"⟩] = .ok entries ∧
      entries.length = 1 := by
  obtain ⟨entries, h1, h2, _⟩ := c10_batch_isolation
    ⟨fun _ => .ok .null, fun _ => .ok .null, fun _ => .ok .null,
      fun _ => .ok .null⟩ [⟨"a.mp3", "audio"⟩] (by decide)
  exact ⟨entries, h1, h2⟩
